import Mathlib

/-!
Shallow embedding of the whiteboard server's synchronization core.

Two node variants are in the sources:
* `server.js` — persists strokes in a Redis list (`LPUSH` on draw, `LRANGE`
  + reverse for a snapshot, read → filter → `DEL` → `RPUSH` for clear-mine)
  and fans out with `socket.broadcast.emit` (origin excluded).
* the pub/sub node — keeps an in-memory `strokes` array; connection
  handlers only `PUBLISH` envelopes on the "whiteboard-events" channel, and
  the `subscribe` callback applies received envelopes to the array and
  fans out with `io.emit` (all sockets, origin included).

Stores are modelled as typed lists of strokes (JSON serialization is taken
as a faithful round trip); `null` user ids are `Option.none`.
-/

/-- A stroke record as it travels on the wire and sits in the stores:
`{ x, y, color, userId }`. `userId` is `none` when the JS value is `null`
(the connection never registered). -/
structure Stroke where
  x : Int
  y : Int
  color : String
  userId : Option String
deriving DecidableEq

/-- A client `draw` payload before server stamping; the client may put any
claimed `userId` field in it. -/
structure DrawPayload where
  x : Int
  y : Int
  color : String
  userId : Option String
deriving DecidableEq

/-- `const withUser = { ...data, userId }` in both draw handlers: every
field of the payload is kept except `userId`, which is overwritten with the
session's user id (the spread puts `userId` last, so it wins). -/
def stampDraw (session : Option String) (d : DrawPayload) : Stroke :=
  ⟨d.x, d.y, d.color, session⟩

/-- Envelope published on the "whiteboard-events" channel:
`{type: "draw", data}`, `{type: "clear-all"}`, `{type: "clear-user", userId}`. -/
inductive Msg where
  | draw (data : Stroke)
  | clearAll
  | clearUser (userId : Option String)
deriving DecidableEq

/-- The pub/sub node's `subClient.subscribe("whiteboard-events", ...)`
callback, acting on the in-memory `strokes` array:
`draw` pushes the stroke (JS `push` appends at the end), `clear-all`
replaces the array with `[]`, `clear-user` keeps the strokes whose
`userId !== targetUser`. -/
def applyMsg (m : Msg) (strokes : List Stroke) : List Stroke :=
  match m with
  | .draw d => strokes ++ [d]
  | .clearAll => []
  | .clearUser u => strokes.filter (fun s => !(s.userId == u))

/-- The pub/sub node's `socket.on("draw")` handler: it builds `withUser`
and publishes the envelope; the local `strokes` array (in scope at that
point) is not touched. Returns (local state after the handler, published
envelope). -/
def pubsubDrawHandler (session : Option String) (d : DrawPayload)
    (strokes : List Stroke) : List Stroke × Msg :=
  (strokes, Msg.draw (stampDraw session d))

/-- The pub/sub node's `socket.on("clear-mine")` handler: it publishes
`{type: "clear-user", userId}`. The local `strokes` array is in scope but
unused — the envelope is built from the session user id alone. -/
def clearMinePublish (session : Option String) (_strokes : List Stroke) : Msg :=
  Msg.clearUser session

/-- `LPUSH`: prepend to the head of the stored list. -/
def lPush (s : Stroke) (store : List Stroke) : List Stroke :=
  s :: store

/-- `getFullBoardState` in server.js: on a read failure (`none`) the catch
branch returns `[]`; on success it returns the stored entries reversed
(because `LPUSH` saves at the head). -/
def getFullBoardState : Option (List Stroke) → List Stroke
  | none => []
  | some store => store.reverse

/-- server.js `socket.on("draw")`: `LPUSH` the stamped stroke onto the
store, then broadcast it. Returns (store after the handler, broadcast
stroke). -/
def drawHandler (session : Option String) (d : DrawPayload)
    (store : List Stroke) : List Stroke × Stroke :=
  (lPush (stampDraw session d) store, stampDraw session d)

/-- server.js `socket.on("clear-all")`: `DEL` the persistent list. -/
def clearAllHandler (_store : List Stroke) : List Stroke :=
  []

/-- server.js `socket.on("clear-mine")`: read the full board state,
filter out the target user's strokes, `DEL` the list, `RPUSH` the
remaining strokes back in that order. The resulting store is exactly the
filtered snapshot (head → tail). -/
def clearMineStore (session : Option String) (store : List Stroke) : List Stroke :=
  (getFullBoardState (some store)).filter (fun s => !(s.userId == session))

/-- Recipient set of `socket.broadcast.emit` in server.js: every connected
socket except the origin. -/
def socketBroadcastRecipients (origin : String) (conns : List String) : List String :=
  conns.filter (fun c => !(c == origin))

/-- Recipient set of the `io.emit` calls in the pub/sub node's subscription
handler: every connected socket, the origin included. -/
def ioEmitRecipients (conns : List String) : List String :=
  conns

/-- Concrete stroke owned by user u1. -/
def strokeU1 : Stroke :=
  ⟨0, 0, "red", some "u1"⟩

/-- Concrete stroke owned by user u2, drawn before `strokeU2b`. -/
def strokeU2a : Stroke :=
  ⟨1, 1, "blue", some "u2"⟩

/-- Concrete stroke owned by user u2, drawn after `strokeU2a`. -/
def strokeU2b : Stroke :=
  ⟨2, 2, "green", some "u2"⟩

/-- Concrete stroke owned by user alice. -/
def strokeAlice : Stroke :=
  ⟨5, 5, "black", some "alice"⟩

/-- Concrete draw payload carrying a forged `userId` claim. -/
def payload0 : DrawPayload :=
  ⟨3, 4, "green", some "mallory"⟩

/-- Concrete draw payload identical to `payload0` except for the claimed
`userId`. -/
def payload1 : DrawPayload :=
  ⟨3, 4, "green", some "bob"⟩

/-- Claim C1: applying the draw branch of the subscription handler twice
with the same envelope yields the same visible stroke set (the set of
strokes in the array) as applying it once. -/
theorem C1_draw_duplicate_same_visible_set (d : Stroke) (l : List Stroke) :
    (applyMsg (Msg.draw d) (applyMsg (Msg.draw d) l)).toFinset
      = (applyMsg (Msg.draw d) l).toFinset := by
  ext a
  simp [applyMsg]

/-- Claim C2 counterexample: with the concrete stroke `strokeU1` owned by
u1 and the empty initial array, delivering clear-user(u1) before the draw
leaves the stroke visible, while the opposite order removes it — the two
delivery orders do not agree, and the stroke is present once both have
been delivered in the delete-first order. -/
theorem C2_counterexample :
    applyMsg (Msg.draw strokeU1) (applyMsg (Msg.clearUser (some "u1")) [])
      ≠ applyMsg (Msg.clearUser (some "u1")) (applyMsg (Msg.draw strokeU1) [])
    ∧ strokeU1 ∈ applyMsg (Msg.draw strokeU1) (applyMsg (Msg.clearUser (some "u1")) []) := by
  decide

/-- Claim C2 amended: the code keeps no tombstone set, so delete wins only
when delivered after the insert — clear-user(u) applied after a draw of a
stroke of u removes it, but clear-user(u) applied before the draw leaves
the stroke visible once both are delivered. -/
theorem C2_delete_wins_only_after_insert (l : List Stroke) (s : Stroke)
    (u : Option String) (h : s.userId = u) :
    s ∉ applyMsg (Msg.clearUser u) (applyMsg (Msg.draw s) l)
    ∧ s ∈ applyMsg (Msg.draw s) (applyMsg (Msg.clearUser u) l) := by
  constructor
  · intro hmem
    simp [applyMsg, List.mem_filter, h] at hmem
  · simp [applyMsg]

/-- Claim C2 witness: the amended statement at the concrete stroke
`strokeU1`, user u1 and the empty initial array. -/
theorem C2_delete_wins_only_after_insert_witness :
    strokeU1 ∉ applyMsg (Msg.clearUser (some "u1")) (applyMsg (Msg.draw strokeU1) [])
    ∧ strokeU1 ∈ applyMsg (Msg.draw strokeU1) (applyMsg (Msg.clearUser (some "u1")) []) :=
  C2_delete_wins_only_after_insert [] strokeU1 (some "u1") rfl

/-- Claim C3 counterexample: for a clear-mine by alice, the published
envelope is the bare `clear-user` command carrying only the user id, and
it is the same whether alice's local view holds one of her strokes or
none — it cannot contain the concrete set of stroke identifiers computed
from the local view, since that set differs between the two views. -/
theorem C3_counterexample :
    clearMinePublish (some "alice") [strokeAlice] = Msg.clearUser (some "alice")
    ∧ clearMinePublish (some "alice") [strokeAlice] = clearMinePublish (some "alice") [] :=
  ⟨rfl, rfl⟩

/-- Claim C3 amended: the clear-mine handler broadcasts the abstract
per-user command — an envelope holding only the session user id,
independent of the node's local stroke view; expansion happens only at
each subscriber, which filters its own local view on receipt. -/
theorem C3_publish_is_abstract_command (u : Option String) (strokes l : List Stroke) :
    clearMinePublish u strokes = Msg.clearUser u
    ∧ applyMsg (clearMinePublish u strokes) l = l.filter (fun s => !(s.userId == u)) :=
  ⟨rfl, rfl⟩

/-- Claim C4: after the server.js clear-mine handler for a session with
user id u completes, neither the re-persisted store nor the snapshot read
from it contains any stroke whose userId equals u. -/
theorem C4_clear_mine_completeness (store : List Stroke) (u : Option String)
    (s : Stroke)
    (h : s ∈ clearMineStore u store
      ∨ s ∈ getFullBoardState (some (clearMineStore u store))) :
    s.userId ≠ u := by
  intro hu
  rcases h with h | h
  · simp [clearMineStore, List.mem_filter, hu] at h
  · simp [clearMineStore, getFullBoardState, List.mem_filter, hu] at h

/-- Claim C4 witness: in a store holding a u2 stroke and a u1 stroke, the
u2 stroke survives a clear-mine by u1, and the theorem yields that its
owner is not u1. -/
theorem C4_clear_mine_completeness_witness :
    strokeU2a ∈ clearMineStore (some "u1") [strokeU2a, strokeU1]
    ∧ strokeU2a.userId ≠ some "u1" :=
  ⟨by decide,
   C4_clear_mine_completeness [strokeU2a, strokeU1] (some "u1") strokeU2a
     (Or.inl (by decide))⟩

/-- Claim C5: server-side attribution in the server.js draw handler — two
payloads equal in every field except their claimed userId produce the
same handler result (same stored list, same broadcast stroke), and the
broadcast/stored stroke carries the session's user id. -/
theorem C5_server_side_attribution (u : String) (d1 d2 : DrawPayload)
    (store : List Stroke)
    (hx : d1.x = d2.x) (hy : d1.y = d2.y) (hc : d1.color = d2.color) :
    drawHandler (some u) d1 store = drawHandler (some u) d2 store
    ∧ ((drawHandler (some u) d1 store).snd).userId = some u := by
  constructor
  · simp [drawHandler, stampDraw, lPush, hx, hy, hc]
  · rfl

/-- Claim C5 witness: the attribution theorem at two concrete payloads
that differ only in the userId they claim (mallory vs bob). -/
theorem C5_server_side_attribution_witness :
    drawHandler (some "u1") payload0 [] = drawHandler (some "u1") payload1 []
    ∧ ((drawHandler (some "u1") payload0 []).snd).userId = some "u1" :=
  C5_server_side_attribution "u1" payload0 payload1 [] rfl rfl rfl

/-- Claim C6 counterexample: in the pub/sub node, the subscription
handler's fan-out of a draw uses `io.emit`, whose recipient set is all
connected sockets — with sockets c0 and c1 connected and c0 the origin of
the draw, c0 is among the recipients, so the originating connection
receives its own draw back. -/
theorem C6_counterexample :
    "c0" ∈ ioEmitRecipients ["c0", "c1"] := by
  decide

/-- Claim C6 amended: server.js fans a draw out with
`socket.broadcast.emit`, whose recipients exclude the origin; the pub/sub
node fans relay-received operations out with `io.emit`, whose recipients
include the origin whenever it is still connected, so a client receives
its own draw echoed back on that variant. -/
theorem C6_echo_exclusion_amended (origin : String) (conns : List String)
    (h : origin ∈ conns) :
    origin ∉ socketBroadcastRecipients origin conns
    ∧ origin ∈ ioEmitRecipients conns := by
  refine ⟨?_, h⟩
  intro hmem
  simp [socketBroadcastRecipients, List.mem_filter] at hmem

/-- Claim C6 witness: the amended statement with sockets c0 and c1
connected and c0 the origin. -/
theorem C6_echo_exclusion_amended_witness :
    "c0" ∉ socketBroadcastRecipients "c0" ["c0", "c1"]
    ∧ "c0" ∈ ioEmitRecipients ["c0", "c1"] :=
  C6_echo_exclusion_amended "c0" ["c0", "c1"] (by decide)

/-- Claim C7 counterexample: on a connection whose register event has not
run (session user id still null), a draw with a concrete payload does
mutate the store — the empty store becomes non-empty — and the handler
still produces a broadcast stroke, stamped with userId null. -/
theorem C7_counterexample :
    (drawHandler none payload0 []).fst ≠ []
    ∧ ((drawHandler none payload0 []).snd).userId = none := by
  constructor
  · decide
  · rfl

/-- Claim C7 amended: the handlers perform no registration check — on an
unregistered connection (session user id null) a draw still prepends a
stroke stamped with userId null to the store and broadcasts it, and
clear-all still empties the store. -/
theorem C7_no_registration_guard (d : DrawPayload) (store : List Stroke) :
    (drawHandler none d store).fst = stampDraw none d :: store
    ∧ ((drawHandler none d store).snd).userId = none
    ∧ clearAllHandler store = [] :=
  ⟨rfl, rfl, rfl⟩

/-- Claim C8 counterexample: in the pub/sub node, after the draw handler
has run (the publish has been issued) on an empty local array, the
stamped stroke is not in the local state — local application did not
precede the relay, and a lost publish leaves the local state without the
stroke. -/
theorem C8_counterexample :
    stampDraw (some "u1") payload0 ∉ (pubsubDrawHandler (some "u1") payload0 []).fst := by
  decide

/-- Claim C8 amended: the pub/sub node's draw handler leaves local state
untouched and only publishes; the stroke enters the local array only when
the node's own subscription callback delivers the published envelope
back. server.js, by contrast, persists the stamped stroke into its store
within the handler. -/
theorem C8_publish_precedes_local_apply (session : Option String)
    (d : DrawPayload) (strokes store : List Stroke) :
    (pubsubDrawHandler session d strokes).fst = strokes
    ∧ applyMsg (pubsubDrawHandler session d strokes).snd strokes
        = strokes ++ [stampDraw session d]
    ∧ (drawHandler session d store).fst = stampDraw session d :: store :=
  ⟨rfl, rfl, rfl⟩

/-- Folding `LPUSH` over a write sequence builds the reversed sequence on
top of the accumulator. -/
theorem foldl_lPush_reverse (ws acc : List Stroke) :
    ws.foldl (fun store s => lPush s store) acc = ws.reverse ++ acc := by
  induction ws generalizing acc with
  | nil => simp
  | cons w ws ih => simp [lPush, ih]

/-- Claim C9: `getFullBoardState` returns the empty list when the store
read fails, and on success returns the stored entries reversed — so after
any sequence of `LPUSH` writes starting from an empty store, the snapshot
is the writes in chronological order. -/
theorem C9_bootstrap_snapshot (ws : List Stroke) :
    getFullBoardState none = []
    ∧ getFullBoardState (some (ws.foldl (fun store s => lPush s store) [])) = ws := by
  refine ⟨rfl, ?_⟩
  simp [getFullBoardState, foldl_lPush_reverse]

/-- Claim C10, evaluated at the failing input: the store holds (head to
tail) strokeU2b, strokeU2a, strokeU1 — i.e. u1's stroke was drawn first,
then u2's strokeU2a, then u2's strokeU2b. A clear-mine by u1 keeps
exactly u2's two strokes, but re-persists them as [strokeU2a, strokeU2b],
the reverse of their original stored order [strokeU2b, strokeU2a]; the
snapshot subsequently read from the new store is [strokeU2b, strokeU2a],
reverse-chronological, where the snapshot before the clear listed them
chronologically as strokeU2a then strokeU2b. -/
theorem C10_order_reversal :
    clearMineStore (some "u1") [strokeU2b, strokeU2a, strokeU1]
      = [strokeU2a, strokeU2b]
    ∧ [strokeU2b, strokeU2a, strokeU1].filter (fun s => !(s.userId == some "u1"))
      = [strokeU2b, strokeU2a]
    ∧ getFullBoardState (some (clearMineStore (some "u1") [strokeU2b, strokeU2a, strokeU1]))
      = [strokeU2b, strokeU2a]
    ∧ ([strokeU2a, strokeU2b] : List Stroke) ≠ [strokeU2b, strokeU2a] := by
  decide
